import Mathlib

/-!
Verification of the resume-builder backend (`src/main.py`, `src/schemas.py`).

The core logic operates on Python dicts produced by `pydantic` `model_dump`.
We embed those dicts shallowly: the key set of both `Resume.model_dump()` and
`BasicInfo.model_dump()` is fixed, so each dict is a Lean structure whose
fields are the dict's keys.  The functions `rewrite_content` and
`adapt_by_region_and_type` are applied to both dict shapes, whose only
difference is the element type of the `experience` / `education` /
`certifications` lists; we therefore parameterise the record over those
element types.  Text is Lean `String` (a list of Unicode code points, matching
Python `str` indexing and `len`); raw bytes are `List Nat` with each entry
below 256.
-/

/-- `ExperienceItem` from `src/schemas.py`. -/
structure ExperienceItem where
  title : String
  company : String
  location : Option String
  start_date : Option String
  end_date : Option String
  bullets : List String
deriving DecidableEq

/-- `EducationItem` from `src/schemas.py`. -/
structure EducationItem where
  school : String
  degree : Option String
  field : Option String
  start_date : Option String
  end_date : Option String
  details : Option String
deriving DecidableEq

/-- `CertificationItem` from `src/schemas.py`. -/
structure CertificationItem where
  name : String
  issuer : Option String
  year : Option String
deriving DecidableEq

/-- The dict shape shared by `Resume.model_dump()` and `BasicInfo.model_dump()`
(`src/main.py`, `src/schemas.py`): same key set, differing only in the element
types of the three structured lists.  `layout` models the `"_layout"` key,
which is absent (`none`) until `adapt_by_region_and_type` sets it. -/
structure RecordD (ε η κ : Type) where
  name : String
  email : String
  phone : Option String
  location : Option String
  summary : Option String
  experience : List ε
  education : List η
  skills : List String
  certifications : List κ
  achievements : List String
  target_role : Option String
  layout : Option String := none
deriving DecidableEq

/-- The dict produced by `payload.resume.model_dump()` in `optimize_resume`:
the `Resume` schema's structured item types. -/
abbrev ResumeData := RecordD ExperienceItem EducationItem CertificationItem

/-- A loosely-typed mapping (Python `dict`), as appearing in
`BasicInfo.education` / `experience` / `certifications`: an association list. -/
abbrev LooseDict := List (String × String)

/-- The dict produced by `payload.basic.model_dump()` in `generate_from_basic`. -/
abbrev BasicData := RecordD LooseDict LooseDict LooseDict

/-- `GenerateOptions` from `src/main.py` (the `Literal` value sets restrict
requests, but none of the core functions depend on that restriction). -/
structure GenerateOptions where
  region : String
  resume_type : String
  tone : String

/-- Python truthiness of an optional string: `None` and `""` are falsy. -/
def truthyStr : Option String → Bool
  | none => false
  | some s => !s.isEmpty

/-- `rewrite_content` from `src/main.py`:
`out = resume.copy(); if resume.get("summary") and tone == "Concise":
out["summary"] = s[:220] + ("…" if len(s) > 220 else "")`. -/
def rewrite_content (resume : RecordD ε η κ) (tone : String) : RecordD ε η κ :=
  if truthyStr resume.summary && tone == "Concise" then
    let s := resume.summary.getD ""
    { resume with summary := some (s.take 220 ++ (if 220 < s.length then "…" else "")) }
  else
    resume

/-- `adapt_by_region_and_type` from `src/main.py`.  The `region` argument is
accepted and never read, exactly as in the source. -/
def adapt_by_region_and_type (resume : RecordD ε η κ) (_region : String)
    (rtype : String) : RecordD ε η κ :=
  if rtype == "Functional" then
    { resume with layout := some "skills-first" }
  else if rtype == "Chronological" then
    { resume with layout := some "experience-first" }
  else if rtype == "Mini-Resume" then
    { resume with
        experience := resume.experience.take 3
        education := resume.education.take 1
        skills := resume.skills.take 10 }
  else
    resume

/-- The score computed inline in `optimize_resume` before the cap:
`score = 80; if len(data.get("skills", [])) >= 8: score += 5;
if data.get("summary"): score += 3`. -/
def atsScoreRaw (d : ResumeData) : Nat :=
  80 + (if 8 ≤ d.skills.length then 5 else 0) + (if truthyStr d.summary then 3 else 0)

/-- The `/api/optimize` handler core (`optimize_resume` in `src/main.py`):
rewrite, adapt, score with `min(score, 95)`; the best-effort store write has
no effect on the response. -/
def optimize_resume (resume : ResumeData) (options : GenerateOptions) :
    ResumeData × Nat :=
  let d1 := rewrite_content resume options.tone
  let d2 := adapt_by_region_and_type d1 options.region options.resume_type
  (d2, min (atsScoreRaw d2) 95)

/-- The `/api/generate-from-basic` handler core (`generate_from_basic` in
`src/main.py`): rewrite, adapt, and a literal score of 78. -/
def generate_from_basic (basic : BasicData) (options : GenerateOptions) :
    BasicData × Nat :=
  let d1 := rewrite_content basic options.tone
  let d2 := adapt_by_region_and_type d1 options.region options.resume_type
  (d2, 78)

/-! ## Basic frame lemmas for the rewrite / adapt pipeline -/

theorem string_take_self (s : String) (n : Nat) (h : s.length ≤ n) :
    s.take n = s := by
  rw [String.take_eq]
  have h2 : s.data.take n = s.data := List.take_of_length_le h
  rw [h2]

theorem append_ellipsis_ne_empty (s : String) : (s ++ "…").isEmpty = false := by
  rw [Bool.eq_false_iff]
  intro hc
  have h1 : s ++ "…" = "" := (String.isEmpty_iff _).mp hc
  have h2 := congrArg String.data h1
  rw [String.data_append] at h2
  have h3 : ("…" : String).data = [] := (List.append_eq_nil.mp h2).2
  simp at h3

theorem rewrite_content_skills (resume : RecordD ε η κ) (tone : String) :
    (rewrite_content resume tone).skills = resume.skills := by
  unfold rewrite_content
  split <;> rfl

theorem rewrite_content_summary_truthy (resume : RecordD ε η κ) (tone : String) :
    truthyStr (rewrite_content resume tone).summary = truthyStr resume.summary := by
  unfold rewrite_content
  split
  · next h =>
    rcases hs : resume.summary with _ | s
    · simp [hs, truthyStr] at h
    · simp only [hs, Option.getD]
      simp only [truthyStr]
      simp [hs, truthyStr, Bool.and_eq_true] at h
      by_cases hlen : 220 < s.length
      · simp only [if_pos hlen]
        rw [append_ellipsis_ne_empty, h.1]
      · simp only [if_neg hlen]
        rw [String.append_empty, string_take_self s 220 (Nat.le_of_not_lt hlen)]
  · rfl

theorem adapt_summary (resume : RecordD ε η κ) (region rtype : String) :
    (adapt_by_region_and_type resume region rtype).summary = resume.summary := by
  unfold adapt_by_region_and_type
  split <;> try rfl
  split <;> try rfl
  split <;> rfl

theorem adapt_skills_of_le_ten (resume : RecordD ε η κ) (region rtype : String)
    (h : resume.skills.length ≤ 10) :
    (adapt_by_region_and_type resume region rtype).skills = resume.skills := by
  unfold adapt_by_region_and_type
  split
  · rfl
  · split
    · rfl
    · split
      · simpa using List.take_of_length_le h
      · rfl

theorem atsScoreRaw_cases (d : ResumeData) :
    atsScoreRaw d = 80 ∨ atsScoreRaw d = 83 ∨ atsScoreRaw d = 85 ∨ atsScoreRaw d = 88 := by
  unfold atsScoreRaw
  split <;> split <;> simp

theorem atsScoreRaw_le (d : ResumeData) : atsScoreRaw d ≤ 88 := by
  rcases atsScoreRaw_cases d with h | h | h | h <;> omega

/-! ## Sample records used as concrete inputs -/

def sampleResume : ResumeData :=
  { name := "Ada Lovelace", email := "ada@example.com", phone := some "+1 555 0100"
  , location := some "London", summary := some "Pioneer of computing."
  , experience := [], education := [], skills := ["Math"], certifications := []
  , achievements := [], target_role := none }

def nineSkillResume : ResumeData :=
  { name := "A", email := "a@b.co", phone := none, location := none
  , summary := some "ML engineer"
  , experience := [], education := []
  , skills := ["a", "b", "c", "d", "e", "f", "g", "h", "i"]
  , certifications := [], achievements := [], target_role := none }

def threeSkillResume : ResumeData :=
  { name := "B", email := "b@c.co", phone := none, location := none
  , summary := none
  , experience := [], education := [], skills := ["a", "b", "c"]
  , certifications := [], achievements := [], target_role := none }

def defaultOptions : GenerateOptions :=
  { region := "United States", resume_type := "Chronological", tone := "Formal" }

/-! ## Claim theorems -/

/-- Claim C1 (counterexample): an optimize request whose resume has 9 skills
and a non-empty summary yields `ats_score = 88`, not 95 as the claim states:
80 + 5 + 3 = 88 and the cap at 95 never raises a score. -/
theorem C1_counterexample :
    (optimize_resume nineSkillResume defaultOptions).2 = 88 ∧
    (optimize_resume nineSkillResume defaultOptions).2 ≠ 95 := by
  decide

/-- Claim C1 (amended): for every optimize request, a resume with 9 skills and
a truthy summary scores 88 (= 80 + 5 + 3, under the cap), one with 3 skills
and a falsy summary scores 80, and the returned score is exactly
`min (80 + skill bonus + summary bonus) 95` evaluated on the
rewritten-and-adapted resume. -/
theorem C1_optimize_score (resume : ResumeData) (options : GenerateOptions) :
    (resume.skills.length = 9 → truthyStr resume.summary = true →
      (optimize_resume resume options).2 = 88)
    ∧ (resume.skills.length = 3 → truthyStr resume.summary = false →
      (optimize_resume resume options).2 = 80)
    ∧ (optimize_resume resume options).2 =
        min (atsScoreRaw (adapt_by_region_and_type
          (rewrite_content resume options.tone) options.region options.resume_type)) 95 := by
  refine ⟨?_, ?_, rfl⟩
  · intro h9 hsum
    have hsk1 : (rewrite_content resume options.tone).skills = resume.skills :=
      rewrite_content_skills resume options.tone
    have hsk2 : (adapt_by_region_and_type (rewrite_content resume options.tone)
        options.region options.resume_type).skills = resume.skills := by
      rw [adapt_skills_of_le_ten _ _ _ (by rw [hsk1, h9]; omega), hsk1]
    have hsum2 : truthyStr (adapt_by_region_and_type (rewrite_content resume options.tone)
        options.region options.resume_type).summary = true := by
      rw [adapt_summary, rewrite_content_summary_truthy, hsum]
    simp only [optimize_resume, atsScoreRaw, hsk2, h9, hsum2]
    norm_num
  · intro h3 hsum
    have hsk1 : (rewrite_content resume options.tone).skills = resume.skills :=
      rewrite_content_skills resume options.tone
    have hsk2 : (adapt_by_region_and_type (rewrite_content resume options.tone)
        options.region options.resume_type).skills = resume.skills := by
      rw [adapt_skills_of_le_ten _ _ _ (by rw [hsk1, h3]; omega), hsk1]
    have hsum2 : truthyStr (adapt_by_region_and_type (rewrite_content resume options.tone)
        options.region options.resume_type).summary = false := by
      rw [adapt_summary, rewrite_content_summary_truthy, hsum]
    simp only [optimize_resume, atsScoreRaw, hsk2, h3, hsum2]
    norm_num

/-- Witness for C1: the amended score law evaluated on concrete resumes. -/
theorem C1_optimize_score_witness :
    (optimize_resume nineSkillResume defaultOptions).2 = 88 ∧
    (optimize_resume threeSkillResume defaultOptions).2 = 80 :=
  ⟨(C1_optimize_score nineSkillResume defaultOptions).1 (by decide) (by decide),
   (C1_optimize_score threeSkillResume defaultOptions).2.1 (by decide) (by decide)⟩

/-- Claim C2: the score returned by `/api/optimize` is always one of
80, 83, 85, 88, and equals the uncapped value, so `min (score, 95)` never
alters the computed score. -/
theorem C2_score_range (resume : ResumeData) (options : GenerateOptions) :
    ((optimize_resume resume options).2 = 80 ∨ (optimize_resume resume options).2 = 83
      ∨ (optimize_resume resume options).2 = 85 ∨ (optimize_resume resume options).2 = 88)
    ∧ (optimize_resume resume options).2 =
        atsScoreRaw (adapt_by_region_and_type
          (rewrite_content resume options.tone) options.region options.resume_type) := by
  have hc := atsScoreRaw_cases (adapt_by_region_and_type
    (rewrite_content resume options.tone) options.region options.resume_type)
  have hle := atsScoreRaw_le (adapt_by_region_and_type
    (rewrite_content resume options.tone) options.region options.resume_type)
  simp only [optimize_resume]
  constructor
  · rcases hc with h | h | h | h <;> rw [h] <;> omega
  · omega

/-- Claim C3: with tone "Concise", a present summary longer than 220
characters is replaced by its first 220 characters followed by "…", and a
summary of at most 220 characters is returned unchanged. -/
theorem C3_concise_summary {ε η κ : Type} (resume : RecordD ε η κ) (s : String)
    (hs : resume.summary = some s) :
    (220 < s.length →
      (rewrite_content resume "Concise").summary = some (s.take 220 ++ "…"))
    ∧ (s.length ≤ 220 →
      (rewrite_content resume "Concise").summary = some s) := by
  by_cases hemp : s.isEmpty
  · have hse : s = "" := (String.isEmpty_iff s).mp hemp
    subst hse
    constructor
    · intro hlt
      simp [String.length] at hlt
    · intro _
      unfold rewrite_content
      rw [hs]
      have hfalse : (truthyStr (some "") && "Concise" == "Concise") = false := rfl
      rw [hfalse]
      simp [hs]
  · have hcond : (truthyStr resume.summary && "Concise" == "Concise") = true := by
      rw [hs]
      simp [truthyStr]
      simpa using hemp
    constructor
    · intro hlt
      unfold rewrite_content
      rw [if_pos hcond, hs]
      simp [Option.getD, if_pos hlt]
    · intro hle
      unfold rewrite_content
      rw [if_pos hcond, hs]
      have hnlt : ¬ 220 < s.length := Nat.not_lt.mpr hle
      simp only [Option.getD, if_neg hnlt]
      rw [String.append_empty, string_take_self s 220 hle]

/-- Witness for C3: a short summary survives a "Concise" rewrite unchanged. -/
theorem C3_concise_summary_witness :
    (rewrite_content sampleResume "Concise").summary = some "Pioneer of computing." :=
  (C3_concise_summary sampleResume "Pioneer of computing." rfl).2 (by decide)

/-- Claim C4: `adapt_by_region_and_type` with resume type "Mini-Resume" on a
resume with 5 experience items, 2 education items and 12 skills keeps exactly
the first 3 experience items, the first education item, and the first 10
skills, preserving order and content of each retained prefix. -/
theorem C4_mini_resume {ε η κ : Type} (resume : RecordD ε η κ) (region : String)
    (h1 : resume.experience.length = 5) (h2 : resume.education.length = 2)
    (h3 : resume.skills.length = 12) :
    (adapt_by_region_and_type resume region "Mini-Resume").experience =
        resume.experience.take 3
    ∧ (adapt_by_region_and_type resume region "Mini-Resume").experience.length = 3
    ∧ (adapt_by_region_and_type resume region "Mini-Resume").education =
        resume.education.take 1
    ∧ (adapt_by_region_and_type resume region "Mini-Resume").education.length = 1
    ∧ (adapt_by_region_and_type resume region "Mini-Resume").skills =
        resume.skills.take 10
    ∧ (adapt_by_region_and_type resume region "Mini-Resume").skills.length = 10 := by
  refine ⟨rfl, ?_, rfl, ?_, rfl, ?_⟩ <;>
    simp [adapt_by_region_and_type, List.length_take, h1, h2, h3]

def miniSample : RecordD Nat Nat Nat :=
  { name := "n", email := "e@f.co", phone := none, location := none
  , summary := none
  , experience := [10, 20, 30, 40, 50], education := [1, 2]
  , skills := ["s1", "s2", "s3", "s4", "s5", "s6", "s7", "s8", "s9", "s10", "s11", "s12"]
  , certifications := [], achievements := [], target_role := none }

/-- Witness for C4: the Mini-Resume truncation on a concrete record. -/
theorem C4_mini_resume_witness :
    (adapt_by_region_and_type miniSample "India" "Mini-Resume").experience = [10, 20, 30]
    ∧ (adapt_by_region_and_type miniSample "India" "Mini-Resume").education = [1]
    ∧ (adapt_by_region_and_type miniSample "India" "Mini-Resume").skills =
        ["s1", "s2", "s3", "s4", "s5", "s6", "s7", "s8", "s9", "s10"] :=
  have h := C4_mini_resume miniSample "India" rfl rfl rfl
  ⟨h.1.trans (by decide), h.2.2.1.trans (by decide), h.2.2.2.2.1.trans (by decide)⟩

/-- Claim C8: `/api/generate-from-basic` returns `ats_score = 78` for every
payload and every option set. -/
theorem C8_generate_score (basic : BasicData) (options : GenerateOptions) :
    (generate_from_basic basic options).2 = 78 := rfl

/-- Claim C9: `rewrite_content` is the identity for every tone other than
"Concise", and for tone "Concise" every field other than `summary` is
unchanged. -/
theorem C9_rewrite_frame {ε η κ : Type} (resume : RecordD ε η κ) (tone : String) :
    (tone ≠ "Concise" → rewrite_content resume tone = resume)
    ∧ ((rewrite_content resume "Concise").name = resume.name
      ∧ (rewrite_content resume "Concise").email = resume.email
      ∧ (rewrite_content resume "Concise").phone = resume.phone
      ∧ (rewrite_content resume "Concise").location = resume.location
      ∧ (rewrite_content resume "Concise").experience = resume.experience
      ∧ (rewrite_content resume "Concise").education = resume.education
      ∧ (rewrite_content resume "Concise").skills = resume.skills
      ∧ (rewrite_content resume "Concise").certifications = resume.certifications
      ∧ (rewrite_content resume "Concise").achievements = resume.achievements
      ∧ (rewrite_content resume "Concise").target_role = resume.target_role
      ∧ (rewrite_content resume "Concise").layout = resume.layout) := by
  constructor
  · intro h
    have hb : (tone == "Concise") = false := by
      simpa using h
    unfold rewrite_content
    rw [hb]
    simp
  · unfold rewrite_content
    split <;> simp

/-- Witness for C9: a non-"Concise" tone leaves a concrete resume unchanged. -/
theorem C9_rewrite_frame_witness :
    rewrite_content sampleResume "Formal" = sampleResume :=
  (C9_rewrite_frame sampleResume "Formal").1 (by decide)

/-- Claim C10: the region argument has no effect on
`adapt_by_region_and_type`: any two regions give identical output. -/
theorem C10_region_no_effect {ε η κ : Type} (resume : RecordD ε η κ)
    (r1 r2 rtype : String) :
    adapt_by_region_and_type resume r1 rtype =
      adapt_by_region_and_type resume r2 rtype := rfl

/-! ## Heuristic field extraction (`heuristic_extract` in `src/main.py`) -/

/-- The line-break characters recognised by Python `str.splitlines`. -/
def isPyLineBreak (c : Char) : Bool :=
  c == '\n' || c == '\r' || c.toNat == 0x0B || c.toNat == 0x0C
    || c.toNat == 0x1C || c.toNat == 0x1D || c.toNat == 0x1E
    || c.toNat == 0x85 || c.toNat == 0x2028 || c.toNat == 0x2029

/-- Python `str.splitlines` over a character list: line breaks separate lines,
`"\r\n"` counts as a single break, and a trailing break adds no empty line. -/
def splitlinesGo : List Char → List Char → List (List Char)
  | [], acc => if acc.isEmpty then [] else [acc.reverse]
  | '\r' :: '\n' :: rest, acc => acc.reverse :: splitlinesGo rest []
  | c :: rest, acc =>
    if isPyLineBreak c then acc.reverse :: splitlinesGo rest []
    else splitlinesGo rest (c :: acc)

def pySplitlines (s : String) : List String :=
  (splitlinesGo s.data []).map String.mk

/-- The characters Python `str.strip` removes (Unicode whitespace per
`str.isspace`). -/
def isPySpace (c : Char) : Bool :=
  (0x09 ≤ c.toNat && c.toNat ≤ 0x0D) || (0x1C ≤ c.toNat && c.toNat ≤ 0x1F)
    || c.toNat == 0x20 || c.toNat == 0x85 || c.toNat == 0xA0
    || c.toNat == 0x1680 || (0x2000 ≤ c.toNat && c.toNat ≤ 0x200A)
    || c.toNat == 0x2028 || c.toNat == 0x2029 || c.toNat == 0x202F
    || c.toNat == 0x205F || c.toNat == 0x3000

/-- Python `str.strip()`. -/
def pyStrip (s : String) : String :=
  String.mk ((s.data.dropWhile isPySpace).reverse.dropWhile isPySpace).reverse

/-- Python `str.lower()` (ASCII letters; the heuristics only compare against
ASCII patterns). -/
def pyLower (s : String) : String :=
  String.mk (s.data.map Char.toLower)

/-- Python `needle in haystack` substring test. -/
def hasSublist (needle : List Char) : List Char → Bool
  | [] => needle.isEmpty
  | c :: rest => needle.isPrefixOf (c :: rest) || hasSublist needle rest

/-- The remainder after the first `':'`, i.e. `l.split(":", 1)[1]` when the
split produces two parts; `none` when the line has no colon. -/
def afterFirstColon : List Char → Option (List Char)
  | [] => none
  | c :: rest => if c == ':' then some rest else afterFirstColon rest

/-- Python `str.split(sep)` for a single-character separator. -/
def splitOnChar (sep : Char) : List Char → List (List Char)
  | [] => [[]]
  | c :: rest =>
    if c == sep then [] :: splitOnChar sep rest
    else
      match splitOnChar sep rest with
      | t :: ts => (c :: t) :: ts
      | [] => [[c]]

/-- `[s.strip() for s in remainder.replace("|", ",").split(",") if s.strip()]`. -/
def tokenizeSkills (remainder : List Char) : List String :=
  ((splitOnChar ',' (remainder.map fun c => if c == '|' then ',' else c)).map
    (fun cs => pyStrip (String.mk cs))).filter (fun t => !t.isEmpty)

/-- One iteration of the skills loop in `heuristic_extract`: the new skills
list when line `l` matches the skills pattern and has a colon, else `none`
(the accumulator is kept). -/
def skillsUpdate (l : String) : Option (List String) :=
  if "skills".data.isPrefixOf (pyLower l).data
      || hasSublist "skills:".data (pyLower l).data then
    (afterFirstColon l.data).map tokenizeSkills
  else
    none

/-- The final value of `skills` after the loop over all lines. -/
def extractSkills (lines : List String) : List String :=
  lines.foldl (fun acc l => (skillsUpdate l).getD acc) []

/-- `[l.strip() for l in text.splitlines() if l.strip()]`. -/
def extractLines (text : String) : List String :=
  ((pySplitlines text).map pyStrip).filter (fun l => !l.isEmpty)

/-- Python `l.replace(" ", "")`. -/
def removeSpaces (l : String) : String :=
  String.mk (l.data.filter (fun c => !(c == ' ')))

/-- Python `str.isdigit()` (false on the empty string). -/
def pyIsDigitStr (s : String) : Bool :=
  !s.data.isEmpty && s.data.all Char.isDigit

/-- The dict returned by `heuristic_extract` in `src/main.py`. -/
structure Extracted where
  name : String
  email : String
  phone : Option String
  summary : Option String
  education : List EducationItem
  experience : List ExperienceItem
  skills : List String
  certifications : List CertificationItem
  achievements : List String
deriving DecidableEq

/-- `heuristic_extract` from `src/main.py`. -/
def heuristic_extract (text : String) : Extracted :=
  let lines := extractLines text
  { name := lines.headD ""
  , email := (lines.find? (fun l => l.data.contains '@' && l.data.contains '.')).getD
      "user@example.com"
  , phone := lines.find? (fun l =>
      (l.data.any Char.isDigit && l.data.contains '+') || pyIsDigitStr (removeSpaces l))
  , summary := none
  , education := []
  , experience := []
  , skills := extractSkills lines
  , certifications := []
  , achievements := [] }

theorem foldl_skillsUpdate_none (suf : List String) (acc : List String)
    (h : ∀ l ∈ suf, skillsUpdate l = none) :
    suf.foldl (fun acc l => (skillsUpdate l).getD acc) acc = acc := by
  induction suf generalizing acc with
  | nil => rfl
  | cons x xs ih =>
    have hx : skillsUpdate x = none := h x (by simp)
    simp only [List.foldl_cons, hx, Option.getD_none]
    exact ih acc (fun l hl => h l (List.mem_cons_of_mem x hl))

theorem extractSkills_last (pre suf : List String) (x : String) (T : List String)
    (hx : skillsUpdate x = some T) (hsuf : ∀ l ∈ suf, skillsUpdate l = none) :
    extractSkills (pre ++ x :: suf) = T := by
  unfold extractSkills
  rw [List.foldl_append]
  simp only [List.foldl_cons, hx, Option.getD_some]
  exact foldl_skillsUpdate_none suf T hsuf

/-- Claim C5 (counterexample): the input text contains the line
`"Skills: Python, Go | Rust"`, yet the extracted skills are `["Java"]`: the
loop keeps the tokens of the *last* matching line, so a later skills line
overrides the earlier one. -/
theorem C5_counterexample :
    extractLines "Skills: Python, Go | Rust\nSkills: Java" =
      ["Skills: Python, Go | Rust", "Skills: Java"]
    ∧ (heuristic_extract "Skills: Python, Go | Rust\nSkills: Java").skills = ["Java"]
    ∧ (["Java"] : List String) ≠ ["Python", "Go", "Rust"] := by
  decide

/-- Claim C5 (amended): for input text in which `"Skills: Python, Go | Rust"`
appears as a stripped non-blank line and no later line re-assigns the skills
(matches the skills pattern and contains a colon), `heuristic_extract`
returns skills `["Python", "Go", "Rust"]`: the line is split on its first
colon and the remainder tokenized on commas and pipes, trimmed, empties
dropped. -/
theorem C5_skills_line (text : String) (pre suf : List String)
    (hsplit : extractLines text = pre ++ "Skills: Python, Go | Rust" :: suf)
    (hsuf : ∀ l ∈ suf, skillsUpdate l = none) :
    (heuristic_extract text).skills = ["Python", "Go", "Rust"] := by
  have hrfl : (heuristic_extract text).skills = extractSkills (extractLines text) := rfl
  rw [hrfl, hsplit]
  exact extractSkills_last pre suf _ _ (by decide) hsuf

/-- Witness for C5: the single skills line on its own. -/
theorem C5_skills_line_witness :
    (heuristic_extract "Skills: Python, Go | Rust").skills = ["Python", "Go", "Rust"] :=
  C5_skills_line "Skills: Python, Go | Rust" [] [] (by decide) (by simp)

/-- Claim C6: when no line contains both "@" and ".", the extracted email is
the literal placeholder, and the empty input yields the all-default record
with that placeholder. -/
theorem C6_email_placeholder (text : String) :
    ((∀ l ∈ extractLines text, (l.data.contains '@' && l.data.contains '.') = false) →
      (heuristic_extract text).email = "user@example.com")
    ∧ heuristic_extract "" =
        { name := "", email := "user@example.com", phone := none, summary := none
        , education := [], experience := [], skills := [], certifications := []
        , achievements := [] } := by
  constructor
  · intro h
    have hf : (extractLines text).find?
        (fun l => l.data.contains '@' && l.data.contains '.') = none := by
      apply List.find?_eq_none.mpr
      intro x hx
      simpa using h x hx
    have hrfl : (heuristic_extract text).email =
        ((extractLines text).find?
          (fun l => l.data.contains '@' && l.data.contains '.')).getD
          "user@example.com" := rfl
    rw [hrfl, hf]
    rfl
  · decide

/-- Witness for C6: a text with no email-looking line. -/
theorem C6_email_placeholder_witness :
    (heuristic_extract "hello world").email = "user@example.com" :=
  (C6_email_placeholder "hello world").1 (by decide)

/-! ## Text decoding (`parse_txt` in `src/main.py`)

Byte content is `List Nat` with entries below 256; decoded text is its list
of Unicode code points.  `utf8Decode` is strict UTF-8 as Python's
`bytes.decode("utf-8")`: continuation bytes are `0x80‥0xBF`, overlong
encodings, surrogate code points and values above `0x10FFFF` are rejected.
-/

def utf8Decode : List Nat → Option (List Nat)
  | [] => some []
  | b :: rest =>
    if b < 0x80 then
      (utf8Decode rest).map (b :: ·)
    else if b < 0xC2 then
      none
    else if b < 0xE0 then
      match rest with
      | b1 :: rest2 =>
        if 0x80 ≤ b1 ∧ b1 < 0xC0 then
          (utf8Decode rest2).map (((b - 0xC0) * 0x40 + (b1 - 0x80)) :: ·)
        else none
      | [] => none
    else if b < 0xF0 then
      match rest with
      | b1 :: b2 :: rest2 =>
        if 0x80 ≤ b1 ∧ b1 < 0xC0 ∧ 0x80 ≤ b2 ∧ b2 < 0xC0
            ∧ (b = 0xE0 → 0xA0 ≤ b1) ∧ (b = 0xED → b1 < 0xA0) then
          (utf8Decode rest2).map
            (((b - 0xE0) * 0x1000 + (b1 - 0x80) * 0x40 + (b2 - 0x80)) :: ·)
        else none
      | _ => none
    else if b < 0xF5 then
      match rest with
      | b1 :: b2 :: b3 :: rest2 =>
        if 0x80 ≤ b1 ∧ b1 < 0xC0 ∧ 0x80 ≤ b2 ∧ b2 < 0xC0 ∧ 0x80 ≤ b3 ∧ b3 < 0xC0
            ∧ (b = 0xF0 → 0x90 ≤ b1) ∧ (b = 0xF4 → b1 < 0x90) then
          (utf8Decode rest2).map
            (((b - 0xF0) * 0x40000 + (b1 - 0x80) * 0x1000
              + (b2 - 0x80) * 0x40 + (b3 - 0x80)) :: ·)
        else none
      | _ => none
    else
      none

/-- Python `bytes.decode("latin-1")`: each byte is its own code point; it
succeeds on every byte value below 256, so on every `bytes` object. -/
def latin1Decode (content : List Nat) : Option (List Nat) :=
  if ∀ b ∈ content, b < 256 then some content else none

/-- `parse_txt` from `src/main.py`: try UTF-8, fall back to Latin-1, fall
back to the empty string. -/
def parse_txt (content : List Nat) : List Nat :=
  match utf8Decode content with
  | some cps => cps
  | none =>
    match latin1Decode content with
    | some cps => cps
    | none => []

/-- Claim C7: on byte content that strict UTF-8 rejects, `parse_txt` returns
the Latin-1 decoding (the bytes themselves as code points), which is
non-empty whenever the content is; it never fails. -/
theorem C7_latin1_fallback (content : List Nat)
    (hbytes : ∀ b ∈ content, b < 256)
    (hutf8 : utf8Decode content = none) :
    parse_txt content = content ∧ (content ≠ [] → parse_txt content ≠ []) := by
  have hl : latin1Decode content = some content := by
    unfold latin1Decode
    rw [if_pos hbytes]
  have hmain : parse_txt content = content := by
    unfold parse_txt
    rw [hutf8, hl]
  exact ⟨hmain, fun hne => by rw [hmain]; exact hne⟩

/-- Witness for C7: the single byte `0xFF` is invalid UTF-8 and decodes to
the code point 255 via Latin-1. -/
theorem C7_latin1_fallback_witness : parse_txt [255] = [255] :=
  (C7_latin1_fallback [255] (by decide) (by decide)).1
